import Mathlib

/-
  Verification of the PMXT sidecar lifecycle supervisor
  (src/sdks/python/pmxt/server_manager.py, class ServerManager).

  The Python module is embedded shallowly.  All interaction with the
  outside world (lock file, process table, HTTP health endpoint,
  package.json files, launcher executables, subprocess outcome, the
  post-launch polling trace) is captured in a `World` record of oracles.
  Every operation of the class becomes a pure function of the `World`;
  stateful operations additionally return the updated `World` and a
  chronological trace of the observable side effects (SIGTERM deliveries,
  lock-file removals, launcher invocations).  Python exceptions are
  modelled with `Except PyError`: an uncaught exception propagates as
  `Except.error`, and each `try/except` of the source is mirrored by a
  `match` that intercepts exactly the errors its clause names.

  Elided details, none observed by any claim: the argv assembly for the
  launcher child process (the node-wrapping of .js launchers), the
  numeric value of request timeouts inside a single HTTP call (durations
  of the polling checks are oracles instead), and concurrent writes to
  the lock file by the launched sidecar (the model world records only
  the changes made by the supervisor itself).
-/

namespace Pmxt

/-- DEFAULT_PORT of ServerManager (line 35). -/
def DEFAULT_PORT : Int := 3847

/-- HEALTH_CHECK_TIMEOUT of ServerManager, in seconds (line 36). -/
def HEALTH_CHECK_TIMEOUT : Nat := 10

/-- The timeout passed to subprocess.run when invoking the launcher
(line 230): the source passes timeout=self.HEALTH_CHECK_TIMEOUT. -/
def LAUNCHER_INVOCATION_TIMEOUT : Nat := HEALTH_CHECK_TIMEOUT

/-- HEALTH_CHECK_TIMEOUT in milliseconds, the unit of the wait loop model. -/
def HEALTH_TIMEOUT_MS : Nat := 10000

/-- HEALTH_CHECK_INTERVAL (0.1 s, line 37) in milliseconds. -/
def HEALTH_INTERVAL_MS : Nat := 100

/-- Default per-call timeout of _check_health (2 s, line 263) in
milliseconds; _wait_for_health calls _check_health with this default. -/
def CHECK_CALL_TIMEOUT_MS : Nat := 2000

/-- A JSON value as produced by json.loads.  These are the Python values
the manager inspects: null, booleans, integers, strings, arrays and
objects.  (JSON floats never matter to any inspected field and are not
modelled.) -/
inductive JVal where
  | null
  | bool (b : Bool)
  | int (n : Int)
  | str (s : String)
  | list (elems : List JVal)
  | dict (fields : List (String × JVal))

/-- Python truthiness of a JSON value: None, False, 0, the empty string,
the empty list and the empty dict are falsy. -/
def truthy : JVal → Bool
  | .null => false
  | .bool b => b
  | .int n => n != 0
  | .str s => s != ""
  | .list es => !es.isEmpty
  | .dict f => !f.isEmpty

/-- Python exceptions relevant to the manager, by identity.  Message
strings are abstracted into the constructor except for the captured
launcher diagnostics, which the source interpolates into the message. -/
inductive PyError where
  | typeError
  | attributeError
  | keyError
  | osError
  | jsonDecodeError
  | urlError
  | httpError
  | launcherNotFound
  | startupTimeout
  | launchFailed (diag : String)
  | healthTimeout
deriving DecidableEq, Repr

/-- Python x == y where y is a string literal: true exactly for the equal
string value (no coercion across types). -/
def eqStr (v : JVal) (k : String) : Bool :=
  match v with
  | .str s => s == k
  | _ => false

/-- Helper for the Python substring test: does the second list contain
the first as a contiguous run. -/
def hasSubList (key : List Char) : List Char → Bool
  | [] => key.isEmpty
  | c :: rest => key.isPrefixOf (c :: rest) || hasSubList key rest

/-- Python membership test key in v, for a string key: dict key lookup,
list element equality, substring test on strings; TypeError on values
that support no membership test (None, bool, int). -/
def pyContainsStr (v : JVal) (key : String) : Except PyError Bool :=
  match v with
  | .dict f => .ok (f.lookup key).isSome
  | .list es => .ok (es.any fun e => eqStr e key)
  | .str s => .ok (hasSubList key.toList s.toList)
  | _ => .error .typeError

/-- Python v.get(key) on a JSON value: returns None for a missing key;
AttributeError when v is not a dict. -/
def pyGet (v : JVal) (key : String) : Except PyError JVal :=
  match v with
  | .dict f => .ok ((f.lookup key).getD .null)
  | _ => .error .attributeError

/-- Python subscript v[key] with a string key: KeyError for a missing
dict key, TypeError when v is not a dict. -/
def pySubscriptStr (v : JVal) (key : String) : Except PyError JVal :=
  match v with
  | .dict f =>
    match f.lookup key with
    | some x => .ok x
    | none => .error .keyError
  | _ => .error .typeError

/-- Python v.startswith(p): defined for string receivers and string
arguments; AttributeError on a non-string receiver, TypeError on a
non-string argument. -/
def pyStartswith (v p : JVal) : Except PyError Bool :=
  match v, p with
  | .str s, .str e => .ok (e.toList.isPrefixOf s.toList)
  | .str _, _ => .error .typeError
  | _, _ => .error .attributeError

/-- The value os.kill accepts as a pid: an int, or a bool (a Python int
subclass, coerced to 0 or 1).  Anything else raises TypeError. -/
def pidAsInt : JVal → Option Int
  | .int n => some n
  | .bool b => some (if b then 1 else 0)
  | _ => none

/-- State of the lock file at self.lock_path: absent (exists() is
false), present but unreadable (read_text raises OSError), present but
not JSON (json.loads raises JSONDecodeError), or present with a parsed
JSON value. -/
inductive LockFileState where
  | absent
  | unreadable
  | malformed
  | content (v : JVal)

/-- State of a package.json path consulted by _is_version_mismatch:
the path does not exist, or exists but reading or parsing it raises,
or holds a parsed JSON value. -/
inductive PkgSource where
  | absent
  | unreadable
  | content (v : JVal)

/-- Body of a returned health response: not valid JSON, or a parsed
JSON value. -/
inductive HttpBody where
  | unparsable
  | parsed (v : JVal)

/-- Outcome of one HTTP GET against the health endpoint: a transport
failure (URLError, including socket timeouts), an error status that
makes urlopen raise HTTPError, or a returned response with its final
status and body. -/
inductive HttpResult where
  | urlError
  | httpError
  | success (status : Nat) (body : HttpBody)

/-- Outcome of subprocess.run on the launcher: the invocation timeout
expired (TimeoutExpired), or the child completed with an exit code and
captured output streams. -/
inductive LaunchOutcome where
  | timedOut
  | completed (returncode : Int) (stderr stdout : String)

/-- Which launcher candidate resolution picked (lines 194 to 210). -/
inductive LauncherPath where
  | bundled
  | localDev
  | onPath (p : String)
deriving DecidableEq, Repr

/-- An observable side effect of the supervisor: a SIGTERM actually
delivered to a pid, a lock file removal, or a launcher invocation. -/
inductive Ev where
  | kill (pid : Int)
  | unlink
  | invoke (l : LauncherPath)
deriving DecidableEq, Repr

/-- The environment of one ensure_server_running call: every external
fact the ServerManager methods consult.  procAlive n holds when
os.kill(n, 0) succeeds; httpResp is the health-endpoint response as a
function of the port value taken from the lock record; postHealth i and
postDur i are the result and the duration in milliseconds of the i-th
health poll of _wait_for_health after a launch. -/
structure World where
  alwaysRestart : Bool
  lock : LockFileState
  procAlive : Int → Bool
  httpResp : JVal → HttpResult
  bundledPkg : PkgSource
  devPkg : PkgSource
  bundledExists : Bool
  localExists : Bool
  whichPath : Option String
  launch : LaunchOutcome
  postHealth : Nat → Bool
  postDur : Nat → Nat

/-- The world after _remove_stale_lock (lines 183 to 188): unlink with a
bare except, so the lock file is gone afterwards in every case. -/
def remove_stale_lock (w : World) : World := { w with lock := .absent }

/-- ServerManager.get_server_info before its try/except (lines 287 to
300): an exists() test, then read_text, then json.loads, each of which
can raise. -/
def get_server_info_body (w : World) : Except PyError (Option JVal) :=
  match w.lock with
  | .absent => .ok none
  | .unreadable => .error .osError
  | .malformed => .error .jsonDecodeError
  | .content v => .ok (some v)

/-- ServerManager.get_server_info with its bare except made explicit:
every error of the body becomes a normal None return, so the method
itself never raises. -/
def get_server_info_x (w : World) : Except PyError (Option JVal) :=
  match get_server_info_body w with
  | .ok v => .ok v
  | .error _ => .ok none

/-- ServerManager.get_server_info (lines 287 to 300), as its callers see
it: the record when present and parseable, None otherwise. -/
def get_server_info (w : World) : Option JVal :=
  match get_server_info_x w with
  | .ok v => v
  | .error _ => none

/-- ServerManager._check_health before its catch-all except (lines 274
to 283): urlopen, then on status 200 a JSON parse and a comparison of
the status field with the literal string ok. -/
def check_health_body (r : HttpResult) : Except PyError Bool :=
  match r with
  | .urlError => .error .urlError
  | .httpError => .error .httpError
  | .success status body =>
    if status == 200 then
      match body with
      | .unparsable => .error .jsonDecodeError
      | .parsed v => do
          let sv ← pyGet v "status"
          pure (eqStr sv "ok")
    else .ok false

/-- ServerManager._check_health: the except clause names Exception, so
every error of the body becomes False. -/
def check_health (r : HttpResult) : Except PyError Bool :=
  match check_health_body r with
  | .ok b => .ok b
  | .error _ => .ok false

/-- ServerManager._is_process_running (lines 170 to 181): os.kill(pid, 0)
with OSError and ProcessLookupError mapped to False; a non-integer pid
raises TypeError, which the except clause does not name. -/
def is_process_running (w : World) (pidv : JVal) : Except PyError Bool :=
  match pidAsInt pidv with
  | some n => .ok (w.procAlive n)
  | none => .error .typeError

/-- ServerManager.is_server_alive (lines 129 to 168).  Returns the
classification, the world after any stale-lock removal, and the trace of
removals.  The outer except names only JSONDecodeError and OSError, so a
TypeError from os.kill propagates; the inner bare except around
_check_health maps any error of the health check to False. -/
def is_server_alive (w : World) : Except PyError (Bool × World × List Ev) :=
  match w.lock with
  | .absent => .ok (false, w, [])
  | .unreadable => .ok (false, w, [])
  | .malformed => .ok (false, w, [])
  | .content v =>
    match v with
    | .dict fields =>
      let pidv := (fields.lookup "pid").getD .null
      let portv := (fields.lookup "port").getD (.int DEFAULT_PORT)
      if truthy pidv then
        match is_process_running w pidv with
        | .error e => .error e
        | .ok true =>
          match check_health (w.httpResp portv) with
          | .ok b => .ok (b, w, [])
          | .error _ => .ok (false, w, [])
        | .ok false => .ok (false, remove_stale_lock w, [Ev.unlink])
      else .ok (false, w, [])
    | _ =>
      -- lock_data.get on a non-dict raises AttributeError, which the
      -- except clause does not name
      .error .attributeError

/-- pkg_path.exists() for a modelled package.json path: an unreadable
file still exists. -/
def PkgSource.pathExists : PkgSource → Bool
  | .absent => false
  | _ => true

/-- The expected-version source picked by _is_version_mismatch (lines 98
to 106): the bundled package.json when its path exists, otherwise the
monorepo core/package.json. -/
def expected_pkg (w : World) : PkgSource :=
  if w.bundledPkg.pathExists then w.bundledPkg else w.devPkg

/-- The try block of _is_version_mismatch (lines 97 to 112), given the
record value already read: resolve the expected-version source, read and
parse it, take its version field, and when that is truthy compare it as
a prefix of the version subscripted out of the record.  Every raise
inside this block is caught by the bare except of the caller. -/
def version_check_body (w : World) (v : JVal) : Except PyError Bool :=
  match expected_pkg w with
  | .absent => .ok false
  | .unreadable => .error .osError
  | .content d => do
      let ev ← pyGet d "version"
      if truthy ev then do
        let rv ← pySubscriptStr v "version"
        let sw ← pyStartswith rv ev
        pure (!sw)
      else pure false

/-- ServerManager._is_version_mismatch (lines 90 to 114).  A missing or
falsy record, or a record without a version field, is a mismatch; the
membership test itself sits before the try block, so it can raise on a
record value that supports no membership test; every error inside the
try block falls through to False. -/
def is_version_mismatch (w : World) : Except PyError Bool :=
  match get_server_info w with
  | none => .ok true
  | some v =>
    if truthy v then
      match pyContainsStr v "version" with
      | .error e => .error e
      | .ok false => .ok true
      | .ok true =>
        .ok (match version_check_body w v with
             | .ok b => b
             | .error _ => false)
    else .ok true

/-- ServerManager._kill_old_server (lines 116 to 127).  The truthiness
test short-circuits the membership test; the membership test on a
non-container record raises; os.kill with SIGTERM sits inside a bare
try/except, so a dead pid, an ill-typed pid or a failed subscript is
swallowed; _remove_stale_lock runs unconditionally afterwards.  A kill
event is recorded exactly when the signal is delivered, that is when the
pid names a live process. -/
def kill_old_server (w : World) : Except PyError (World × List Ev) :=
  match get_server_info w with
  | none => .ok (remove_stale_lock w, [Ev.unlink])
  | some v =>
    if truthy v then
      match pyContainsStr v "pid" with
      | .error e => .error e
      | .ok true =>
        let kev :=
          match pySubscriptStr v "pid" with
          | .ok pv =>
            match pidAsInt pv with
            | some n => if w.procAlive n then [Ev.kill n] else []
            | none => []
          | .error _ => []
        .ok (remove_stale_lock w, kev ++ [Ev.unlink])
      | .ok false => .ok (remove_stale_lock w, [Ev.unlink])
    else .ok (remove_stale_lock w, [Ev.unlink])

/-- The launcher resolution of _start_server_via_launcher (lines 194 to
210): bundled path first, then the monorepo path, then shutil.which. -/
def locate_launcher (w : World) : Option LauncherPath :=
  if w.bundledExists then some .bundled
  else if w.localExists then some .localDev
  else match w.whichPath with
    | some p => some (.onPath p)
    | none => none

/-- ServerManager._start_server_via_launcher (lines 190 to 240).
Resolution failure raises before any child process is spawned.  On an
invocation the subprocess outcome is consulted: TimeoutExpired becomes
the startup-timeout error raised in its except clause, and a nonzero
exit code becomes the launch-failed error carrying stderr when nonempty
and stdout otherwise (the Python or of the two streams). -/
def start_server_via_launcher (w : World) : List Ev × Except PyError Unit :=
  match locate_launcher w with
  | none => ([], .error .launcherNotFound)
  | some l =>
    match w.launch with
    | .timedOut => ([Ev.invoke l], .error .startupTimeout)
    | .completed rc err out =>
      if rc != 0 then ([Ev.invoke l], .error (.launchFailed (if err != "" then err else out)))
      else ([Ev.invoke l], .ok ())

/-- Result of the polling loop of _wait_for_health: the time in
milliseconds at which a successful check returned, or the time at which
the loop condition failed and the timeout exception was raised. -/
inductive WaitResult where
  | healthy (t : Nat)
  | timedOutAt (t : Nat)
deriving DecidableEq, Repr

/-- The while loop of _wait_for_health (lines 248 to 257), in
milliseconds of elapsed wall-clock time.  t is the elapsed time when the
loop condition is evaluated, i the index of the next poll; a poll takes
dur i milliseconds and the sleep after a failed poll takes
HEALTH_INTERVAL_MS.  The first argument is structural fuel: each
iteration advances t by at least HEALTH_INTERVAL_MS, so from t = 0 the
loop re-evaluates its condition at most HEALTH_TIMEOUT_MS /
HEALTH_INTERVAL_MS times before t reaches HEALTH_TIMEOUT_MS; with that
much fuel the exhaustion branch returns exactly what the loop condition
would (waitGo_fuel_sound below certifies fuel irrelevance). -/
def waitGo (health : Nat → Bool) (dur : Nat → Nat) : Nat → Nat → Nat → WaitResult
  | 0, t, _ => .timedOutAt t
  | fuel + 1, t, i =>
    if t < HEALTH_TIMEOUT_MS then
      if health i then .healthy (t + dur i)
      else waitGo health dur fuel (t + dur i + HEALTH_INTERVAL_MS) (i + 1)
    else .timedOutAt t

/-- Fuel sufficient for the loop from t = 0. -/
def WAIT_FUEL : Nat := HEALTH_TIMEOUT_MS / HEALTH_INTERVAL_MS

/-- ServerManager._wait_for_health (lines 242 to 261): run the polling
loop; a timeout raises the health-timeout exception. -/
def wait_for_health (w : World) : Except PyError Unit :=
  match waitGo w.postHealth w.postDur WAIT_FUEL 0 0 with
  | .healthy _ => .ok ()
  | .timedOutAt _ => .error .healthTimeout

/-- Final state of one ensure_server_running call: the world as the
supervisor leaves it, the chronological trace of observable side
effects, and the returned or raised outcome. -/
structure RunResult where
  world : World
  trace : List Ev
  result : Except PyError Unit

/-- Steps 3 and 4 of ensure_server_running: launch, then poll for
health.  The world is not changed by either step. -/
def launch_and_wait (w : World) (evs : List Ev) : RunResult :=
  match start_server_via_launcher w with
  | (lev, .error e) => ⟨w, evs ++ lev, .error e⟩
  | (lev, .ok ()) =>
    match wait_for_health w with
    | .ok () => ⟨w, evs ++ lev, .ok ()⟩
    | .error e => ⟨w, evs ++ lev, .error e⟩

/-- ServerManager.ensure_server_running (lines 59 to 88): the forced
restart when PMXT_ALWAYS_RESTART is 1, then the alive check, then the
version reconciliation with its kill on mismatch, then launch and
health wait.  An uncaught exception of any step aborts the call with
the effects performed so far. -/
def ensure_server_running (w0 : World) : RunResult :=
  match (if w0.alwaysRestart then kill_old_server w0 else .ok (w0, [])) with
  | .error e => ⟨w0, [], .error e⟩
  | .ok (w1, ev1) =>
    match is_server_alive w1 with
    | .error e => ⟨w1, ev1, .error e⟩
    | .ok (alive, w2, ev2) =>
      if alive then
        match is_version_mismatch w2 with
        | .error e => ⟨w2, ev1 ++ ev2, .error e⟩
        | .ok true =>
          match kill_old_server w2 with
          | .error e => ⟨w2, ev1 ++ ev2, .error e⟩
          | .ok (w3, ev3) => launch_and_wait w3 (ev1 ++ ev2 ++ ev3)
        | .ok false => ⟨w2, ev1 ++ ev2, .ok ()⟩
      else launch_and_wait w2 (ev1 ++ ev2)

/-- ServerManager.get_running_port (lines 302 to 315): the port field of
the parsed record when the record is truthy and contains one, otherwise
DEFAULT_PORT.  The membership test on a truthy non-container record
raises, uncaught. -/
def get_running_port (w : World) : Except PyError JVal :=
  match get_server_info w with
  | none => .ok (.int DEFAULT_PORT)
  | some v =>
    if truthy v then
      match pyContainsStr v "port" with
      | .error e => .error e
      | .ok true => pySubscriptStr v "port"
      | .ok false => .ok (.int DEFAULT_PORT)
    else .ok (.int DEFAULT_PORT)

/-
  Concrete worlds used by witnesses and counterexamples.
-/

/-- A concrete world whose record version 1.2.3 extends the expected
version 1.2 of the bundled package.json. -/
def c4World : World where
  alwaysRestart := false
  lock := .content (.dict [("version", .str "1.2.3")])
  procAlive := fun _ => false
  httpResp := fun _ => .urlError
  bundledPkg := .content (.dict [("version", .str "1.2")])
  devPkg := .absent
  bundledExists := false
  localExists := false
  whichPath := none
  launch := .timedOut
  postHealth := fun _ => false
  postDur := fun _ => 0

/-- A concrete world with a live recorded process, a healthy endpoint
and a matching version: the supervisor should be a no-op on it. -/
def c1World : World where
  alwaysRestart := false
  lock := .content (.dict [("pid", .int 5), ("port", .int 3847), ("version", .str "1.2.3")])
  procAlive := fun n => n == 5
  httpResp := fun _ => .success 200 (.parsed (.dict [("status", .str "ok")]))
  bundledPkg := .content (.dict [("version", .str "1.2")])
  devPkg := .absent
  bundledExists := true
  localExists := false
  whichPath := none
  launch := .completed 0 "" ""
  postHealth := fun _ => true
  postDur := fun _ => 0

/-- A concrete world whose lock record names a pid with no live
process. -/
def c2World : World where
  alwaysRestart := false
  lock := .content (.dict [("pid", .int 77), ("port", .int 3847)])
  procAlive := fun _ => false
  httpResp := fun _ => .urlError
  bundledPkg := .absent
  devPkg := .absent
  bundledExists := true
  localExists := false
  whichPath := none
  launch := .completed 0 "" ""
  postHealth := fun _ => true
  postDur := fun _ => 0

/-- A concrete world whose lock record names a live process that does
not answer the health endpoint: the Checking step classifies it stale
but the source never clears the record on this path. -/
def c3World : World where
  alwaysRestart := false
  lock := .content (.dict [("pid", .int 5), ("port", .int 3847)])
  procAlive := fun n => n == 5
  httpResp := fun _ => .urlError
  bundledPkg := .absent
  devPkg := .absent
  bundledExists := true
  localExists := false
  whichPath := none
  launch := .completed 0 "" ""
  postHealth := fun _ => true
  postDur := fun _ => 0

/-- A concrete world with no lock record, a bundled launcher whose
invocation succeeds, and a health endpoint that never answers. -/
def c5World : World where
  alwaysRestart := false
  lock := .absent
  procAlive := fun _ => false
  httpResp := fun _ => .urlError
  bundledPkg := .absent
  devPkg := .absent
  bundledExists := true
  localExists := false
  whichPath := none
  launch := .completed 0 "" ""
  postHealth := fun _ => false
  postDur := fun _ => 0

/-- A concrete world with no lock record and a bundled launcher whose
invocation exceeds the subprocess timeout. -/
def c7World : World where
  alwaysRestart := false
  lock := .absent
  procAlive := fun _ => false
  httpResp := fun _ => .urlError
  bundledPkg := .absent
  devPkg := .absent
  bundledExists := true
  localExists := false
  whichPath := none
  launch := .timedOut
  postHealth := fun _ => false
  postDur := fun _ => 0

/-- A concrete world whose lock record carries a truthy non-integer pid
field, the shape on which os.kill raises TypeError. -/
def c9World : World where
  alwaysRestart := false
  lock := .content (.dict [("pid", .str "abc")])
  procAlive := fun _ => false
  httpResp := fun _ => .urlError
  bundledPkg := .absent
  devPkg := .absent
  bundledExists := false
  localExists := false
  whichPath := none
  launch := .timedOut
  postHealth := fun _ => false
  postDur := fun _ => 0

/-
  Helper lemmas shared by the claim theorems.
-/

/-- A successful association-list lookup needs a nonempty list. -/
theorem lookup_isEmpty_false {f : List (String × JVal)} {k : String} {x : JVal}
    (h : f.lookup k = some x) : f.isEmpty = false := by
  cases f with
  | nil => simp [List.lookup] at h
  | cons hd tl => simp [List.isEmpty]

/-- A record that owns a field is truthy. -/
theorem truthy_of_lookup {f : List (String × JVal)} {k : String} {x : JVal}
    (h : f.lookup k = some x) : truthy (.dict f) = true := by
  simp [truthy, lookup_isEmpty_false h]

/-- The world is never changed by the launch-and-poll phase. -/
theorem launch_and_wait_world (w : World) (evs : List Ev) :
    (launch_and_wait w evs).world = w := by
  unfold launch_and_wait
  cases h : start_server_via_launcher w with
  | mk lev res =>
    cases res with
    | error e => rfl
    | ok u =>
      cases u
      cases wait_for_health w with
      | ok u2 => cases u2; rfl
      | error e => rfl

/-- When the bundled launcher exists, the launch-and-poll phase always
appends exactly one invocation of it to the trace, whatever the
subprocess and polling outcomes. -/
theorem launch_and_wait_trace (w : World) (evs : List Ev)
    (hB : w.bundledExists = true) :
    (launch_and_wait w evs).trace = evs ++ [Ev.invoke .bundled] := by
  unfold launch_and_wait start_server_via_launcher locate_launcher
  rw [hB]
  simp only [if_true]
  cases w.launch with
  | timedOut => rfl
  | completed rc err out =>
    by_cases hrc : rc = 0
    · subst hrc
      simp only [bne_self_eq_false, if_false, Bool.false_eq_true]
      cases wait_for_health w with
      | ok u => cases u; rfl
      | error e => rfl
    · have : (rc != 0) = true := by simpa using hrc
      simp only [this, if_true]

/-- is_server_alive on a record whose integer pid names a live process
reduces to the health check of the recorded port. -/
theorem is_server_alive_live (w : World) (f : List (String × JVal)) (p : Int)
    (hLock : w.lock = .content (.dict f))
    (hPid : f.lookup "pid" = some (.int p)) (hp : p ≠ 0)
    (hAlive : w.procAlive p = true) (b : Bool)
    (hH : check_health (w.httpResp ((f.lookup "port").getD (.int DEFAULT_PORT))) = .ok b) :
    is_server_alive w = .ok (b, w, []) := by
  have hpt : truthy (.int p) = true := by simpa [truthy] using hp
  simp [is_server_alive, hLock, hPid, hpt, is_process_running, pidAsInt, hAlive, hH]

/-- is_server_alive on a record whose truthy integer pid names no live
process removes the lock and reports not alive. -/
theorem is_server_alive_dead (w : World) (f : List (String × JVal)) (p : Int)
    (hLock : w.lock = .content (.dict f))
    (hPid : f.lookup "pid" = some (.int p)) (hp : p ≠ 0)
    (hDead : w.procAlive p = false) :
    is_server_alive w = .ok (false, remove_stale_lock w, [Ev.unlink]) := by
  have hpt : truthy (.int p) = true := by simpa [truthy] using hp
  simp [is_server_alive, hLock, hPid, hpt, is_process_running, pidAsInt, hDead]

/-- _is_version_mismatch on a record with a version string and a
resolved expected-version string compares them as a prefix. -/
theorem is_version_mismatch_of_strings (w : World) (f g : List (String × JVal)) (v e : String)
    (hLock : w.lock = .content (.dict f))
    (hVer : f.lookup "version" = some (.str v))
    (hPkg : expected_pkg w = .content (.dict g))
    (hEx : g.lookup "version" = some (.str e)) :
    is_version_mismatch w = .ok (!(e.toList.isPrefixOf v.toList)) := by
  by_cases he : e = ""
  · subst he
    simp [is_version_mismatch, get_server_info, get_server_info_x, get_server_info_body,
      hLock, truthy, lookup_isEmpty_false hVer, pyContainsStr, hVer, version_check_body,
      hPkg, pyGet, hEx, bind, Except.bind, pure, Except.pure, String.toList,
      List.isPrefixOf]
  · have het : truthy (.str e) = true := by simpa [truthy] using he
    simp [is_version_mismatch, get_server_info, get_server_info_x, get_server_info_body,
      hLock, truthy, lookup_isEmpty_false hVer, pyContainsStr, hVer, version_check_body,
      hPkg, pyGet, hEx, het, he, bind, Except.bind, pure, Except.pure, pySubscriptStr,
      pyStartswith]

/-- _kill_old_server on a record whose integer pid names no live
process delivers no signal and removes the lock. -/
theorem kill_old_server_dead (w : World) (f : List (String × JVal)) (p : Int)
    (hLock : w.lock = .content (.dict f))
    (hPid : f.lookup "pid" = some (.int p))
    (hDead : w.procAlive p = false) :
    kill_old_server w = .ok (remove_stale_lock w, [Ev.unlink]) := by
  simp [kill_old_server, get_server_info, get_server_info_x, get_server_info_body, hLock,
    truthy, lookup_isEmpty_false hPid, pyContainsStr, hPid, pySubscriptStr, pidAsInt,
    hDead]

/-- C8: the single health check returns Healthy exactly when the GET
yields status 200 with a JSON object body whose status field equals the
literal string ok; every other outcome (transport error, raised HTTP
error status, non-200 status, malformed or non-object body, wrong or
missing status field) is Unhealthy, and no outcome raises. -/
theorem C8_check_health_healthy_iff :
    (∀ r : HttpResult, check_health r = .ok true ↔
      ∃ f : List (String × JVal), r = .success 200 (.parsed (.dict f)) ∧
        f.lookup "status" = some (.str "ok")) ∧
    (∀ r : HttpResult, ∃ b : Bool, check_health r = .ok b) := by
  constructor
  · intro r
    constructor
    · intro h
      cases r with
      | urlError => simp [check_health, check_health_body] at h
      | httpError => simp [check_health, check_health_body] at h
      | success status body =>
        by_cases hs : status = 200
        · subst hs
          cases body with
          | unparsable => simp [check_health, check_health_body] at h
          | parsed v =>
            cases v with
            | dict f =>
              refine ⟨f, rfl, ?_⟩
              simp only [check_health, check_health_body, if_pos, beq_self_eq_true,
                pyGet, bind, Except.bind, pure, Except.pure] at h
              cases hl : f.lookup "status" with
              | none => rw [hl] at h; simp [eqStr] at h
              | some x =>
                rw [hl] at h
                cases x with
                | str s =>
                  simp only [Option.getD_some, eqStr, Except.ok.injEq] at h
                  have : s = "ok" := by simpa using h
                  rw [this]
                | null => simp [eqStr] at h
                | bool b => simp [eqStr] at h
                | int n => simp [eqStr] at h
                | list es => simp [eqStr] at h
                | dict g => simp [eqStr] at h
            | null => simp [check_health, check_health_body, pyGet, bind, Except.bind] at h
            | bool b => simp [check_health, check_health_body, pyGet, bind, Except.bind] at h
            | int n => simp [check_health, check_health_body, pyGet, bind, Except.bind] at h
            | str s => simp [check_health, check_health_body, pyGet, bind, Except.bind] at h
            | list es => simp [check_health, check_health_body, pyGet, bind, Except.bind] at h
        · have hb : (status == 200) = false := by simpa using hs
          simp [check_health, check_health_body, hb] at h
    · rintro ⟨f, rfl, hf⟩
      simp [check_health, check_health_body, pyGet, bind, Except.bind, pure, Except.pure,
        hf, eqStr]
  · intro r
    unfold check_health
    cases check_health_body r with
    | ok b => exact ⟨b, rfl⟩
    | error e => exact ⟨false, rfl⟩

/-- C8 witness: the healthy shape at a concrete response, through the
theorem. -/
theorem C8_check_health_healthy_iff_witness :
    check_health (.success 200 (.parsed (.dict [("status", .str "ok")]))) = .ok true :=
  (C8_check_health_healthy_iff.1 _).mpr ⟨[("status", .str "ok")], rfl, rfl⟩

/-- C10: get_running_port yields DEFAULT_PORT when the lock file is
absent, unreadable, or malformed, and when the parsed record has no port
field; it yields the recorded port value exactly when a parseable record
carrying a port field is present. -/
theorem C10_get_running_port_fallback :
    (∀ w : World, w.lock = .absent → get_running_port w = .ok (.int DEFAULT_PORT)) ∧
    (∀ w : World, w.lock = .unreadable → get_running_port w = .ok (.int DEFAULT_PORT)) ∧
    (∀ w : World, w.lock = .malformed → get_running_port w = .ok (.int DEFAULT_PORT)) ∧
    (∀ (w : World) (f : List (String × JVal)), w.lock = .content (.dict f) →
      f.lookup "port" = none → get_running_port w = .ok (.int DEFAULT_PORT)) ∧
    (∀ (w : World) (f : List (String × JVal)) (pv : JVal), w.lock = .content (.dict f) →
      f.lookup "port" = some pv → get_running_port w = .ok pv) := by
  refine ⟨?_, ?_, ?_, ?_, ?_⟩
  · intro w h
    simp [get_running_port, get_server_info, get_server_info_x, get_server_info_body, h]
  · intro w h
    simp [get_running_port, get_server_info, get_server_info_x, get_server_info_body, h]
  · intro w h
    simp [get_running_port, get_server_info, get_server_info_x, get_server_info_body, h]
  · intro w f h hl
    cases f with
    | nil =>
      simp [get_running_port, get_server_info, get_server_info_x, get_server_info_body, h,
        truthy, List.isEmpty]
    | cons hd tl =>
      simp [get_running_port, get_server_info, get_server_info_x, get_server_info_body, h,
        truthy, List.isEmpty, pyContainsStr, hl]
  · intro w f pv h hl
    simp [get_running_port, get_server_info, get_server_info_x, get_server_info_body, h,
      truthy, lookup_isEmpty_false hl, pyContainsStr, hl, pySubscriptStr]

/-- C10 witness: a concrete record with a port field, through the
theorem. -/
theorem C10_get_running_port_fallback_witness :
    get_running_port
      { alwaysRestart := false
        lock := .content (.dict [("port", .int 4000)])
        procAlive := fun _ => false
        httpResp := fun _ => .urlError
        bundledPkg := .absent
        devPkg := .absent
        bundledExists := false
        localExists := false
        whichPath := none
        launch := .timedOut
        postHealth := fun _ => false
        postDur := fun _ => 0 } = .ok (.int 4000) :=
  C10_get_running_port_fallback.2.2.2.2 _ [("port", .int 4000)] (.int 4000) rfl rfl

/-- C6: launcher resolution follows the fixed priority bundled path,
then development-tree path, then executable search path, first match
winning; in particular the bundled path beats a search-path hit; and
when none of the three is found, ensure_server_running fails with the
fatal launcher-not-found error (shown here from the plain Checking
entry, a world with no lock record and no forced restart). -/
theorem C6_launcher_resolution_order :
    (∀ w : World, w.bundledExists = true → locate_launcher w = some .bundled) ∧
    (∀ (w : World) (p : String), w.bundledExists = true → w.whichPath = some p →
      locate_launcher w = some .bundled) ∧
    (∀ w : World, w.bundledExists = false → w.localExists = true →
      locate_launcher w = some .localDev) ∧
    (∀ (w : World) (p : String), w.bundledExists = false → w.localExists = false →
      w.whichPath = some p → locate_launcher w = some (.onPath p)) ∧
    (∀ w : World, w.bundledExists = false → w.localExists = false → w.whichPath = none →
      locate_launcher w = none ∧
      (w.alwaysRestart = false → w.lock = .absent →
        ensure_server_running w = ⟨w, [], .error .launcherNotFound⟩)) := by
  refine ⟨?_, ?_, ?_, ?_, ?_⟩
  · intro w hB
    simp [locate_launcher, hB]
  · intro w p hB _
    simp [locate_launcher, hB]
  · intro w hB hL
    simp [locate_launcher, hB, hL]
  · intro w p hB hL hW
    simp [locate_launcher, hB, hL, hW]
  · intro w hB hL hW
    have hloc : locate_launcher w = none := by simp [locate_launcher, hB, hL, hW]
    refine ⟨hloc, ?_⟩
    intro hAR hLock
    simp [ensure_server_running, hAR, is_server_alive, hLock, launch_and_wait,
      start_server_via_launcher, hloc]

/-- C6 witness: a world with the launcher both bundled and on the search
path resolves to the bundled copy, through the theorem. -/
theorem C6_launcher_resolution_order_witness :
    locate_launcher
      { alwaysRestart := false
        lock := .absent
        procAlive := fun _ => false
        httpResp := fun _ => .urlError
        bundledPkg := .absent
        devPkg := .absent
        bundledExists := true
        localExists := false
        whichPath := some "/usr/local/bin/pmxt-ensure-server"
        launch := .timedOut
        postHealth := fun _ => false
        postDur := fun _ => 0 } = some .bundled :=
  C6_launcher_resolution_order.2.1 _ "/usr/local/bin/pmxt-ensure-server" rfl rfl

/-- C4: the version-mismatch check treats a record without a version
field as mismatched; with a recorded version string and a resolved
expected-version string it reports mismatch exactly when the recorded
string does not start with the expected string; and when the resolved
expected-version source is missing or unreadable it reports no mismatch
for any record that carries a version field. -/
theorem C4_version_mismatch_cases :
    (∀ (w : World) (f : List (String × JVal)), w.lock = .content (.dict f) →
      f.lookup "version" = none → is_version_mismatch w = .ok true) ∧
    (∀ (w : World) (f g : List (String × JVal)) (v e : String),
      w.lock = .content (.dict f) → f.lookup "version" = some (.str v) →
      expected_pkg w = .content (.dict g) → g.lookup "version" = some (.str e) →
      is_version_mismatch w = .ok (!(e.toList.isPrefixOf v.toList))) ∧
    (∀ (w : World) (f : List (String × JVal)) (rv : JVal),
      w.lock = .content (.dict f) → f.lookup "version" = some rv →
      (expected_pkg w = .absent ∨ expected_pkg w = .unreadable) →
      is_version_mismatch w = .ok false) := by
  refine ⟨?_, ?_, ?_⟩
  · intro w f h hl
    cases f with
    | nil =>
      simp [is_version_mismatch, get_server_info, get_server_info_x, get_server_info_body,
        h, truthy, List.isEmpty]
    | cons hd tl =>
      simp [is_version_mismatch, get_server_info, get_server_info_x, get_server_info_body,
        h, truthy, List.isEmpty, pyContainsStr, hl]
  · intro w f g v e h hv hpkg hev
    by_cases he : e = ""
    · subst he
      simp [is_version_mismatch, get_server_info, get_server_info_x, get_server_info_body,
        h, truthy, lookup_isEmpty_false hv, pyContainsStr, hv, version_check_body, hpkg,
        pyGet, hev, bind, Except.bind, pure, Except.pure, String.toList,
        List.isPrefixOf]
    · have het : truthy (.str e) = true := by simpa [truthy] using he
      simp [is_version_mismatch, get_server_info, get_server_info_x, get_server_info_body,
        h, truthy, lookup_isEmpty_false hv, pyContainsStr, hv, version_check_body, hpkg,
        pyGet, hev, het, he, bind, Except.bind, pure, Except.pure, pySubscriptStr,
        pyStartswith]
  · intro w f rv h hv hpkg
    rcases hpkg with hpkg | hpkg <;>
      simp [is_version_mismatch, get_server_info, get_server_info_x, get_server_info_body,
        h, truthy, lookup_isEmpty_false hv, pyContainsStr, hv, version_check_body, hpkg]

/-- C4 witness: a record with version 1.2.3 against expected version 1.2
is no mismatch, through the theorem. -/
theorem C4_version_mismatch_cases_witness :
    is_version_mismatch c4World = .ok false :=
  C4_version_mismatch_cases.2.1 c4World [("version", .str "1.2.3")]
    [("version", .str "1.2")] "1.2.3" "1.2" rfl rfl rfl rfl


/-- C1: when the lock record is present, its recorded process is alive,
the health endpoint answers healthy and the recorded version matches the
expected version, ensure_server_running (in its default mode, without
the PMXT_ALWAYS_RESTART operator override) returns successfully with no
kill, no lock removal and no launcher invocation, and leaves the world
unchanged, so a second call in succession behaves identically. -/
theorem C1_alive_matching_is_noop (w : World) (f g : List (String × JVal))
    (p : Int) (v e : String)
    (hAR : w.alwaysRestart = false)
    (hLock : w.lock = .content (.dict f))
    (hPid : f.lookup "pid" = some (.int p)) (hp : p ≠ 0)
    (hAlive : w.procAlive p = true)
    (hHealth : check_health (w.httpResp ((f.lookup "port").getD (.int DEFAULT_PORT))) =
      .ok true)
    (hVer : f.lookup "version" = some (.str v))
    (hPkg : expected_pkg w = .content (.dict g))
    (hEx : g.lookup "version" = some (.str e))
    (hMatch : e.toList.isPrefixOf v.toList = true) :
    ensure_server_running w = ⟨w, [], .ok ()⟩ ∧
    ensure_server_running (ensure_server_running w).world = ⟨w, [], .ok ()⟩ := by
  have halive := is_server_alive_live w f p hLock hPid hp hAlive true hHealth
  have hmis : is_version_mismatch w = .ok false := by
    rw [is_version_mismatch_of_strings w f g v e hLock hVer hPkg hEx, hMatch]
    rfl
  have h1 : ensure_server_running w = ⟨w, [], .ok ()⟩ := by
    simp [ensure_server_running, hAR, halive, hmis]
  exact ⟨h1, by rw [h1]; exact h1⟩

/-- C1 witness: the theorem applied to the concrete healthy matching
world. -/
theorem C1_alive_matching_is_noop_witness :
    ensure_server_running c1World = ⟨c1World, [], .ok ()⟩ :=
  (C1_alive_matching_is_noop c1World
    [("pid", .int 5), ("port", .int 3847), ("version", .str "1.2.3")]
    [("version", .str "1.2")] 5 "1.2.3" "1.2"
    rfl rfl rfl (by decide) rfl rfl rfl rfl rfl rfl).1

/-- C2: a lock record whose truthy integer pid names no live process is
removed by ensure_server_running before the fresh launch (shown with
the bundled launcher present), and is_server_alive itself reports not
alive while removing the stale lock. -/
theorem C2_stale_lock_recovery (w : World) (f : List (String × JVal)) (p : Int)
    (hLock : w.lock = .content (.dict f))
    (hPid : f.lookup "pid" = some (.int p)) (hp : p ≠ 0)
    (hDead : w.procAlive p = false)
    (hB : w.bundledExists = true) :
    (ensure_server_running w).world.lock = .absent ∧
    (ensure_server_running w).trace = [Ev.unlink, Ev.invoke .bundled] ∧
    is_server_alive w = .ok (false, remove_stale_lock w, [Ev.unlink]) := by
  have hdead := is_server_alive_dead w f p hLock hPid hp hDead
  have hrun : ensure_server_running w = launch_and_wait (remove_stale_lock w) [Ev.unlink] := by
    cases hAR : w.alwaysRestart with
    | false => simp [ensure_server_running, hAR, hdead]
    | true =>
      simp [ensure_server_running, hAR, kill_old_server_dead w f p hLock hPid hDead,
        is_server_alive, remove_stale_lock]
  have hBr : (remove_stale_lock w).bundledExists = true := hB
  refine ⟨?_, ?_, hdead⟩
  · rw [hrun, launch_and_wait_world]
    rfl
  · rw [hrun, launch_and_wait_trace _ _ hBr]
    rfl

/-- C2 witness: the theorem applied to the concrete dead-pid world. -/
theorem C2_stale_lock_recovery_witness :
    (ensure_server_running c2World).trace = [Ev.unlink, Ev.invoke .bundled] :=
  (C2_stale_lock_recovery c2World [("pid", .int 77), ("port", .int 3847)] 77
    rfl rfl (by decide) rfl rfl).2.1

/-- C3 counterexample: a present lock record whose process is alive but
unresponsive to the health probe is NOT cleared before the machine
proceeds to Launching: on c3World the whole call performs exactly one
launcher invocation and no lock removal, and the record is still in
place afterwards, refuting the claim that such a record is cleared
before the transition to Launching. -/
theorem C3_counterexample :
    ensure_server_running c3World = ⟨c3World, [Ev.invoke .bundled], .ok ()⟩ ∧
    c3World.lock = .content (.dict [("pid", .int 5), ("port", .int 3847)]) :=
  ⟨rfl, rfl⟩

/-- C3 amended: in the Checking step, a present record whose process is
dead is cleared before the transition to Launching, but a present record
whose process is alive and merely unhealthy is left in place: the
machine transitions to Launching without clearing it. -/
theorem C3_amended_checking_step (w : World) (f : List (String × JVal)) (p : Int)
    (hAR : w.alwaysRestart = false)
    (hLock : w.lock = .content (.dict f))
    (hPid : f.lookup "pid" = some (.int p)) (hp : p ≠ 0)
    (hB : w.bundledExists = true) :
    (w.procAlive p = false →
      (ensure_server_running w).world.lock = .absent ∧
      (ensure_server_running w).trace = [Ev.unlink, Ev.invoke .bundled]) ∧
    (w.procAlive p = true →
      check_health (w.httpResp ((f.lookup "port").getD (.int DEFAULT_PORT))) = .ok false →
      (ensure_server_running w).world = w ∧
      (ensure_server_running w).trace = [Ev.invoke .bundled]) := by
  constructor
  · intro hDead
    have hdead := is_server_alive_dead w f p hLock hPid hp hDead
    have hrun : ensure_server_running w = launch_and_wait (remove_stale_lock w) [Ev.unlink] := by
      simp [ensure_server_running, hAR, hdead]
    have hBr : (remove_stale_lock w).bundledExists = true := hB
    constructor
    · rw [hrun, launch_and_wait_world]
      rfl
    · rw [hrun, launch_and_wait_trace _ _ hBr]
      rfl
  · intro hAlive hUnhealthy
    have halive := is_server_alive_live w f p hLock hPid hp hAlive false hUnhealthy
    have hrun : ensure_server_running w = launch_and_wait w [] := by
      simp [ensure_server_running, hAR, halive]
    constructor
    · rw [hrun, launch_and_wait_world]
    · rw [hrun, launch_and_wait_trace _ _ hB]
      rfl

/-- C3 amended witness: both branches of the amended statement at
concrete worlds, through the theorem. -/
theorem C3_amended_checking_step_witness :
    (ensure_server_running c2World).world.lock = .absent ∧
    (ensure_server_running c3World).trace = [Ev.invoke .bundled] :=
  ⟨((C3_amended_checking_step c2World [("pid", .int 77), ("port", .int 3847)] 77
      rfl rfl rfl (by decide) rfl).1 rfl).1,
   ((C3_amended_checking_step c3World [("pid", .int 5), ("port", .int 3847)] 5
      rfl rfl rfl (by decide) rfl).2 rfl rfl).2⟩

/-- C7 counterexample: the launcher-invocation timeout is NOT distinct
from the health-poll timeout: subprocess.run is invoked with
timeout=self.HEALTH_CHECK_TIMEOUT, the very constant that also bounds
the health-poll loop, so the two timeout values coincide (both 10 s). -/
theorem C7_counterexample :
    LAUNCHER_INVOCATION_TIMEOUT = HEALTH_CHECK_TIMEOUT ∧ HEALTH_CHECK_TIMEOUT = 10 :=
  ⟨rfl, rfl⟩

/-- C7 amended: the launcher invocation is bounded by its own
subprocess timeout (which shares the 10 s HEALTH_CHECK_TIMEOUT constant
with the health-poll ceiling), and exceeding it makes
ensure_server_running raise the startup-timeout launch error rather
than hang: the call returns at once with the error, before any health
polling. -/
theorem C7_amended_invocation_timeout (w : World)
    (hAR : w.alwaysRestart = false) (hLock : w.lock = .absent)
    (hB : w.bundledExists = true) (hT : w.launch = .timedOut) :
    ensure_server_running w = ⟨w, [Ev.invoke .bundled], .error .startupTimeout⟩ := by
  simp [ensure_server_running, hAR, is_server_alive, hLock, launch_and_wait,
    start_server_via_launcher, locate_launcher, hB, hT]

/-- C7 amended witness: the theorem at the concrete timed-out-launch
world. -/
theorem C7_amended_invocation_timeout_witness :
    ensure_server_running c7World = ⟨c7World, [Ev.invoke .bundled], .error .startupTimeout⟩ :=
  C7_amended_invocation_timeout c7World rfl rfl rfl rfl

/-- C9 counterexample: a lock file holding the JSON object with a pid
field of the string abc makes is_server_alive raise TypeError (os.kill
rejects a non-integer pid, and the except clause of is_server_alive
names only JSONDecodeError and OSError), refuting the claim that the
operation never propagates an exception for ill-typed fields. -/
theorem C9_counterexample :
    is_server_alive c9World = .error .typeError := rfl

/-- C9 amended: is_server_alive returns a boolean without raising when
the lock file is absent, unreadable or malformed, and on any parsed
object whose pid field is missing, falsy, or an integer (bools
included); a truthy non-integer pid instead raises TypeError (see the
counterexample).  get_server_info never raises in any state. -/
theorem C9_amended_exception_safety :
    (∀ w : World, w.lock = .absent ∨ w.lock = .unreadable ∨ w.lock = .malformed →
      is_server_alive w = .ok (false, w, [])) ∧
    (∀ (w : World) (f : List (String × JVal)), w.lock = .content (.dict f) →
      truthy ((f.lookup "pid").getD .null) = false ∨
        (pidAsInt ((f.lookup "pid").getD .null)).isSome = true →
      ∃ (b : Bool) (w2 : World) (ev : List Ev), is_server_alive w = .ok (b, w2, ev)) ∧
    (∀ w : World, ∃ o, get_server_info_x w = .ok o) := by
  refine ⟨?_, ?_, ?_⟩
  · intro w h
    rcases h with h | h | h <;> simp [is_server_alive, h]
  · intro w f hLock hsafe
    by_cases ht : truthy ((f.lookup "pid").getD .null) = true
    · have hsome : (pidAsInt ((f.lookup "pid").getD .null)).isSome = true := by
        rcases hsafe with hfalse | hsome
        · rw [ht] at hfalse; cases hfalse
        · exact hsome
      obtain ⟨n, hn⟩ := Option.isSome_iff_exists.mp hsome
      cases hpa : w.procAlive n with
      | false =>
        exact ⟨false, remove_stale_lock w, [Ev.unlink],
          by simp [is_server_alive, hLock, ht, is_process_running, hn, hpa]⟩
      | true =>
        cases hch : check_health (w.httpResp ((f.lookup "port").getD (.int DEFAULT_PORT))) with
        | ok b =>
          exact ⟨b, w, [],
            by simp [is_server_alive, hLock, ht, is_process_running, hn, hpa, hch]⟩
        | error e =>
          exact ⟨false, w, [],
            by simp [is_server_alive, hLock, ht, is_process_running, hn, hpa, hch]⟩
    · have ht2 : truthy ((f.lookup "pid").getD .null) = false := by
        simpa using ht
      exact ⟨false, w, [], by simp [is_server_alive, hLock, ht2]⟩
  · intro w
    unfold get_server_info_x
    cases get_server_info_body w with
    | ok v => exact ⟨v, rfl⟩
    | error e => exact ⟨none, rfl⟩

/-- C9 amended witness: the safe cases at a concrete world each, through
the theorem. -/
theorem C9_amended_exception_safety_witness :
    (∃ (b : Bool) (w2 : World) (ev : List Ev),
      is_server_alive c2World = .ok (b, w2, ev)) ∧
    is_server_alive c7World = .ok (false, c7World, []) :=
  ⟨C9_amended_exception_safety.2.1 c2World [("pid", .int 77), ("port", .int 3847)]
      rfl (Or.inr rfl),
   C9_amended_exception_safety.1 c7World (Or.inl rfl)⟩



/-- Fuel irrelevance for the wait loop: any two fuel values that both
cover the remaining budget give the same result, so the structural fuel
of waitGo is only a bookkeeping device and WAIT_FUEL from time 0 is
faithful to the unbounded while loop of the source. -/
theorem waitGo_fuel_sound (health : Nat → Bool) (dur : Nat → Nat) :
    ∀ f1 f2 t i : Nat, HEALTH_TIMEOUT_MS ≤ t + HEALTH_INTERVAL_MS * f1 →
      HEALTH_TIMEOUT_MS ≤ t + HEALTH_INTERVAL_MS * f2 →
      waitGo health dur f1 t i = waitGo health dur f2 t i := by
  intro f1
  induction f1 with
  | zero =>
    intro f2 t i h1 h2
    have ht : ¬ t < HEALTH_TIMEOUT_MS := by
      simp only [HEALTH_TIMEOUT_MS, HEALTH_INTERVAL_MS] at h1 ⊢
      omega
    cases f2 with
    | zero => rfl
    | succ f2 => simp [waitGo, ht]
  | succ f1 ih =>
    intro f2 t i h1 h2
    cases f2 with
    | zero =>
      have ht : ¬ t < HEALTH_TIMEOUT_MS := by
        simp only [HEALTH_TIMEOUT_MS, HEALTH_INTERVAL_MS] at h2 ⊢
        omega
      simp [waitGo, ht]
    | succ f2 =>
      by_cases htl : t < HEALTH_TIMEOUT_MS
      · by_cases hh : health i = true
        · simp [waitGo, htl, hh]
        · have hh2 : health i = false := by simpa using hh
          simp only [waitGo, if_pos htl, hh2, Bool.false_eq_true, if_false]
          refine ih f2 (t + dur i + HEALTH_INTERVAL_MS) (i + 1) ?_ ?_ <;>
            · simp only [HEALTH_TIMEOUT_MS, HEALTH_INTERVAL_MS] at h1 h2 ⊢
              omega
      · simp [waitGo, htl]

/-- When no poll ever succeeds, the wait loop times out, and the raise
happens strictly before the budget plus one check duration plus one
sleep interval. -/
theorem waitGo_no_health (health : Nat → Bool) (dur : Nat → Nat) (D : Nat)
    (hh : ∀ i, health i = false) (hd : ∀ i, dur i ≤ D) :
    ∀ fuel t i : Nat, t < HEALTH_TIMEOUT_MS + D + HEALTH_INTERVAL_MS →
      ∃ te, waitGo health dur fuel t i = .timedOutAt te ∧
        te < HEALTH_TIMEOUT_MS + D + HEALTH_INTERVAL_MS := by
  intro fuel
  induction fuel with
  | zero => intro t i ht; exact ⟨t, rfl, ht⟩
  | succ fuel ih =>
    intro t i ht
    by_cases htl : t < HEALTH_TIMEOUT_MS
    · have hstep : t + dur i + HEALTH_INTERVAL_MS <
          HEALTH_TIMEOUT_MS + D + HEALTH_INTERVAL_MS := by
        have := hd i
        simp only [HEALTH_TIMEOUT_MS, HEALTH_INTERVAL_MS] at *
        omega
      obtain ⟨te, h1, h2⟩ := ih (t + dur i + HEALTH_INTERVAL_MS) (i + 1) hstep
      refine ⟨te, ?_, h2⟩
      simp only [waitGo, if_pos htl, hh i, Bool.false_eq_true, if_false]
      exact h1
    · exact ⟨t, by simp [waitGo, htl], ht⟩

/-- C5 counterexample: with every poll failing and every check taking
exactly the 2 s per-call timeout the source allows it, the loop raises
at 10500 ms of wall-clock time, strictly later than overallTimeout plus
one poll interval (10000 + 100 ms), refuting the claimed bound. -/
theorem C5_counterexample :
    waitGo (fun _ => false) (fun _ => CHECK_CALL_TIMEOUT_MS) WAIT_FUEL 0 0 =
      .timedOutAt 10500 ∧
    HEALTH_TIMEOUT_MS + HEALTH_INTERVAL_MS < 10500 := by
  constructor
  · decide
  · decide

/-- C5 amended: if the launcher succeeds but the health endpoint never
reports healthy, the polling loop of _wait_for_health raises its
timeout no later than overallTimeout plus one check duration plus one
poll interval (so with instantaneous checks, overallTimeout plus one
interval), never looping indefinitely, and ensure_server_running then
terminates with the health-timeout failure right after the single
launcher invocation. -/
theorem C5_amended_bounded_health_wait (health : Nat → Bool) (dur : Nat → Nat)
    (hh : ∀ i, health i = false) (hd : ∀ i, dur i ≤ CHECK_CALL_TIMEOUT_MS) :
    (∃ te, waitGo health dur WAIT_FUEL 0 0 = .timedOutAt te ∧
      te < HEALTH_TIMEOUT_MS + CHECK_CALL_TIMEOUT_MS + HEALTH_INTERVAL_MS) ∧
    (∀ w : World, w.alwaysRestart = false → w.lock = .absent → w.bundledExists = true →
      w.launch = .completed 0 "" "" → w.postHealth = health → w.postDur = dur →
      ensure_server_running w = ⟨w, [Ev.invoke .bundled], .error .healthTimeout⟩) := by
  have hmain := waitGo_no_health health dur CHECK_CALL_TIMEOUT_MS hh hd WAIT_FUEL 0 0
    (by simp [HEALTH_TIMEOUT_MS, CHECK_CALL_TIMEOUT_MS, HEALTH_INTERVAL_MS])
  refine ⟨hmain, ?_⟩
  intro w hAR hLock hB hLaunch hph hpd
  obtain ⟨te, h1, h2⟩ := hmain
  simp [ensure_server_running, hAR, is_server_alive, hLock, launch_and_wait,
    start_server_via_launcher, locate_launcher, hB, hLaunch, wait_for_health,
    hph, hpd, h1]

/-- C5 amended witness: the theorem at the all-failing instantaneous
trace and the concrete never-healthy world. -/
theorem C5_amended_bounded_health_wait_witness :
    ensure_server_running c5World = ⟨c5World, [Ev.invoke .bundled], .error .healthTimeout⟩ :=
  (C5_amended_bounded_health_wait (fun _ => false) (fun _ => 0)
    (fun _ => rfl) (fun _ => Nat.zero_le _)).2 c5World rfl rfl rfl rfl rfl rfl


end Pmxt
